import Mathlib

/-!
Verification of the core of the swap-program tester: the account ledger, the
instruction codec, the scenario fixture and the checkpoint predicates,
shallowly embedded from the Rust sources (`src/helpers.rs`,
`src/mollusk/test_context.rs`).  Machine integers are modelled as `Nat`
with explicit reduction modulo `2 ^ w`; byte buffers are `List Nat`;
fallible operations return `Except`.  The external execution oracle
(Mollusk) and the external address derivations of the Solana SDK are
injected as function parameters, exactly as the spec treats them
(out-of-scope collaborators with a stated contract).
-/

set_option maxRecDepth 100000

namespace SwapTester

/-- Little-endian byte encoding: `leBytes k n` is the `k`-byte
little-endian encoding of `n` (the low `8 * k` bits), mirroring the Rust
`to_le_bytes`. -/
def leBytes : Nat → Nat → List Nat
  | 0, _ => []
  | k + 1, n => n % 256 :: leBytes k (n / 256)

/-- Models `u64::to_le_bytes`. -/
def u64le (n : Nat) : List Nat := leBytes 8 n

/-- Models `i32::to_le_bytes` for a non-negative value (the source only applies
it to the constant `1`). -/
def i32le (n : Nat) : List Nat := leBytes 4 n

/-- Little-endian decoding, as `u64::from_le_bytes` on an 8-byte slice. -/
def fromLe : List Nat → Nat
  | [] => 0
  | b :: rest => b % 256 + 256 * fromLe rest

/-- Big-endian byte encoding (`k` bytes), used in SHA-256 message padding
and word serialization. -/
def beBytes : Nat → Nat → List Nat
  | 0, _ => []
  | k + 1, n => beBytes k (n / 256) ++ [n % 256]

/-! ### SHA-256

Executable model of the external `sha2::Sha256` digest that
`anchor_discriminator` in `src/helpers.rs` calls, implemented from the
FIPS 180-4 description.  Words are `Nat` reduced modulo `2 ^ 32`. -/

/-- 32-bit right rotation. -/
def rotr32 (n x : Nat) : Nat :=
  ((x >>> n) ||| (x <<< (32 - n))) % 4294967296

/-- 32-bit truncating addition. -/
def add32 (a b : Nat) : Nat := (a + b) % 4294967296

/-- 32-bit complement (inputs are kept below `2 ^ 32`). -/
def not32 (x : Nat) : Nat := x ^^^ 4294967295

/-- The SHA-256 round constants, written in decimal. -/
def shaK : List Nat :=
  [1116352408, 1899447441, 3049323471, 3921009573, 961987163,
   1508970993, 2453635748, 2870763221, 3624381080, 310598401,
   607225278, 1426881987, 1925078388, 2162078206, 2614888103,
   3248222580, 3835390401, 4022224774, 264347078, 604807628,
   770255983, 1249150122, 1555081692, 1996064986, 2554220882,
   2821834349, 2952996808, 3210313671, 3336571891, 3584528711,
   113926993, 338241895, 666307205, 773529912, 1294757372,
   1396182291, 1695183700, 1986661051, 2177026350, 2456956037,
   2730485921, 2820302411, 3259730800, 3345764771, 3516065817,
   3600352804, 4094571909, 275423344, 430227734, 506948616,
   659060556, 883997877, 958139571, 1322822218, 1537002063,
   1747873779, 1955562222, 2024104815, 2227730452, 2361852424,
   2428436474, 2756734187, 3204031479, 3329325298]

/-- The SHA-256 initial hash value, written in decimal. -/
def shaH0 : List Nat :=
  [1779033703, 3144134277, 1013904242, 2773480762,
   1359893119, 2600822924, 528734635, 1541459225]

/-- Group a byte stream into big-endian 32-bit words. -/
def toWords : List Nat → List Nat
  | b0 :: b1 :: b2 :: b3 :: rest =>
      (b0 * 16777216 + b1 * 65536 + b2 * 256 + b3) :: toWords rest
  | _ => []

/-- Extend a 16-word message block to 64 words.  The first argument is
remaining fuel (48 generated words); the window holds the last 16 words,
oldest first. -/
def extendWords : Nat → List Nat → List Nat
  | 0, _ => []
  | f + 1, window =>
      let s0 :=
        rotr32 7 (window.getD 1 0) ^^^ rotr32 18 (window.getD 1 0) ^^^
          (window.getD 1 0 >>> 3)
      let s1 :=
        rotr32 17 (window.getD 14 0) ^^^ rotr32 19 (window.getD 14 0) ^^^
          (window.getD 14 0 >>> 10)
      let next := (window.getD 0 0 + s0 + window.getD 9 0 + s1) % 4294967296
      next :: extendWords f (window.tail ++ [next])

/-- The eight working variables of the SHA-256 compression loop. -/
structure ShaState where
  a : Nat
  b : Nat
  c : Nat
  d : Nat
  e : Nat
  f : Nat
  g : Nat
  h : Nat
deriving Repr, DecidableEq

/-- One compression round, applied to (round constant, schedule word). -/
def shaRound (s : ShaState) (kw : Nat × Nat) : ShaState :=
  let S1 := rotr32 6 s.e ^^^ rotr32 11 s.e ^^^ rotr32 25 s.e
  let ch := (s.e &&& s.f) ^^^ (not32 s.e &&& s.g)
  let temp1 := (s.h + S1 + ch + kw.1 + kw.2) % 4294967296
  let S0 := rotr32 2 s.a ^^^ rotr32 13 s.a ^^^ rotr32 22 s.a
  let maj := (s.a &&& s.b) ^^^ (s.a &&& s.c) ^^^ (s.b &&& s.c)
  let temp2 := (S0 + maj) % 4294967296
  { a := (temp1 + temp2) % 4294967296, b := s.a, c := s.b, d := s.c,
    e := (s.d + temp1) % 4294967296, f := s.e, g := s.f, h := s.g }

/-- Compress one 64-byte block into the running hash (8 words). -/
def shaBlock (hv : List Nat) (block : List Nat) : List Nat :=
  let w16 := toWords block
  let w := w16 ++ extendWords 48 w16
  let init : ShaState :=
    { a := hv.getD 0 0, b := hv.getD 1 0, c := hv.getD 2 0, d := hv.getD 3 0,
      e := hv.getD 4 0, f := hv.getD 5 0, g := hv.getD 6 0, h := hv.getD 7 0 }
  let s := (shaK.zip w).foldl shaRound init
  [add32 (hv.getD 0 0) s.a, add32 (hv.getD 1 0) s.b,
   add32 (hv.getD 2 0) s.c, add32 (hv.getD 3 0) s.d,
   add32 (hv.getD 4 0) s.e, add32 (hv.getD 5 0) s.f,
   add32 (hv.getD 6 0) s.g, add32 (hv.getD 7 0) s.h]

/-- Split a byte stream into 64-byte chunks (fuel-driven so that the
definition reduces inside the kernel). -/
def chunks64 : Nat → List Nat → List (List Nat)
  | 0, _ => []
  | _ + 1, [] => []
  | f + 1, l => l.take 64 :: chunks64 f (l.drop 64)

/-- FIPS 180-4 padding: append `0x80`, zeros, and the 64-bit big-endian
bit length, reaching a multiple of 64 bytes. -/
def shaPad (msg : List Nat) : List Nat :=
  let L := msg.length
  let k := (64 - (L + 9) % 64) % 64
  msg ++ 128 :: List.replicate k 0 ++ beBytes 8 (8 * L)

/-- The SHA-256 digest of a byte stream, as 32 bytes. -/
def sha256 (msg : List Nat) : List Nat :=
  let padded := shaPad msg
  let final := (chunks64 (padded.length / 64 + 1) padded).foldl shaBlock shaH0
  final.flatMap (beBytes 4)

/-- ASCII bytes of a string (every string hashed by the source is ASCII). -/
def strBytes (s : String) : List Nat := s.toList.map Char.toNat

/-! ### Instruction codec (`src/helpers.rs`) -/

/-- Models `anchor_discriminator` in `src/helpers.rs`: the first 8 bytes of the
SHA-256 digest of the name. -/
def anchor_discriminator (name : String) : List Nat :=
  (sha256 (strBytes name)).take 8

/-- Models `build_make_offer_data` in `src/helpers.rs`: discriminator of
`global:make_offer` followed by the three little-endian `u64` arguments. -/
def build_make_offer_data (id offered_amount wanted_amount : Nat) : List Nat :=
  anchor_discriminator "global:make_offer" ++
    u64le id ++ u64le offered_amount ++ u64le wanted_amount

/-- Models `build_take_offer_data` in `src/helpers.rs`: just the discriminator of
`global:take_offer`. -/
def build_take_offer_data : List Nat :=
  anchor_discriminator "global:take_offer"

/-! ### Core account types (`src/mollusk/test_context.rs`) -/

/-- A 32-byte address, modelled as its byte list. -/
abbrev Pubkey := List Nat

/-- Pad or truncate an address to its 32-byte wire form; the identity on
well-formed (32-byte) addresses.  Used wherever the source serializes a
`Pubkey` into an account data buffer. -/
def pad32 (p : Pubkey) : List Nat :=
  p.take 32 ++ List.replicate (32 - p.length) 0

/-- Models `solana_account::Account`: the simulated account record. -/
structure Account where
  lamports : Nat
  owner : Pubkey
  data : List Nat
  executable : Bool
deriving Repr, DecidableEq

/-- Models `TestContextError` in `src/mollusk/test_context.rs`. -/
inductive TestContextError where
  | ExecutionError (msg : String)
  | ValidationError (msg : String)
  | AccountNotFound (msg : String)
deriving Repr, DecidableEq

/-- Decidable equality of `Except` values, used to evaluate the harness
on concrete inputs. -/
instance {ε α : Type} [DecidableEq ε] [DecidableEq α] :
    DecidableEq (Except ε α)
  | .error e, .error f =>
      if h : e = f then .isTrue (by rw [h]) else .isFalse (by simp [h])
  | .error _, .ok _ => .isFalse (by simp)
  | .ok _, .error _ => .isFalse (by simp)
  | .ok a, .ok b =>
      if h : a = b then .isTrue (by rw [h]) else .isFalse (by simp [h])

/-- Models `solana_instruction::AccountMeta`. -/
structure AccountMeta where
  pubkey : Pubkey
  is_signer : Bool
  is_writable : Bool
deriving Repr, DecidableEq

/-- Models `AccountMeta::new` — writable. -/
def AccountMeta.new (p : Pubkey) (signer : Bool) : AccountMeta :=
  { pubkey := p, is_signer := signer, is_writable := true }

/-- Models `AccountMeta::new_readonly`. -/
def AccountMeta.new_readonly (p : Pubkey) (signer : Bool) : AccountMeta :=
  { pubkey := p, is_signer := signer, is_writable := false }

/-- Models `solana_instruction::Instruction`. -/
structure Instruction where
  program_id : Pubkey
  data : List Nat
  accounts : List AccountMeta
deriving Repr, DecidableEq

/-- Models `create_swap_instruction` in `src/helpers.rs`. -/
def create_swap_instruction (program_id : Pubkey) (data : List Nat)
    (accounts : List AccountMeta) : Instruction :=
  { program_id := program_id, data := data, accounts := accounts }

/-- The verdict of the oracle on one instruction (`mollusk` `ProgramResult`,
reduced to what `execute_instruction` inspects: `is_err` plus an opaque
debug rendering). -/
inductive ProgramResult where
  | success
  | failure (diag : String)
deriving Repr, DecidableEq

/-- Debug rendering of a `ProgramResult`, standing in for the Rust
`format!` with the `Debug` formatter. -/
def ProgramResult.debugFmt : ProgramResult → String
  | .success => "Success"
  | .failure diag => diag

/-- Models `mollusk` `InstructionResult`, reduced to the two fields
`execute_instruction` reads. -/
structure InstructionResult where
  program_result : ProgramResult
  resulting_accounts : List (Pubkey × Account)

/-- The injected execution oracle: `Mollusk::process_instruction` as a
function of the instruction and the submitted account snapshot. -/
def Oracle := Instruction → List (Pubkey × Account) → InstructionResult

/-! ### The account map

`SwapTestContext.accounts` is a `HashMap<Pubkey, Account>`; we model it
as an association list whose `insert` replaces an existing binding in
place or appends a new one, matching `HashMap::insert` observationally. -/

/-- The account map. -/
abbrev AccountMap := List (Pubkey × Account)

/-- Models `HashMap::insert`: replace the binding if present, else add it. -/
def insertAccount : AccountMap → Pubkey → Account → AccountMap
  | [], k, v => [(k, v)]
  | (k', v') :: rest, k, v =>
      if k' = k then (k, v) :: rest else (k', v') :: insertAccount rest k v

/-- Models `HashMap::get` (cloned snapshot). -/
def lookupAccount : AccountMap → Pubkey → Option Account
  | [], _ => none
  | (k', v') :: rest, k => if k' = k then some v' else lookupAccount rest k

/-- Models `SwapTestContext` in `src/mollusk/test_context.rs`; the `mollusk`
field is the injected oracle. -/
structure SwapTestContext where
  mollusk : Oracle
  accounts : AccountMap
  program_id : Pubkey

namespace SwapTestContext

/-- Models `SwapTestContext::new`. -/
def new (mollusk : Oracle) (program_id : Pubkey) : SwapTestContext :=
  { mollusk := mollusk, accounts := [], program_id := program_id }

/-- Models `SwapTestContext::add_account`. -/
def add_account (st : SwapTestContext) (p : Pubkey) (a : Account) :
    SwapTestContext :=
  { st with accounts := insertAccount st.accounts p a }

/-- Models `SwapTestContext::get_account`. -/
def get_account (st : SwapTestContext) (p : Pubkey) : Option Account :=
  lookupAccount st.accounts p

/-- Models `SwapTestContext::get_account_list`: the snapshot handed to the
oracle. -/
def get_account_list (st : SwapTestContext) : List (Pubkey × Account) :=
  st.accounts

/-- Models `SwapTestContext::execute_instruction`.  Rust mutates `self` in
place; we return the outcome together with the context after the call,
which on the error path is the untouched receiver. -/
def execute_instruction (st : SwapTestContext) (instruction : Instruction) :
    Except TestContextError Unit × SwapTestContext :=
  let result := st.mollusk instruction st.get_account_list
  match result.program_result with
  | .failure diag =>
      (.error (.ExecutionError (ProgramResult.debugFmt (.failure diag))), st)
  | .success =>
      (.ok (),
        { st with
          accounts := result.resulting_accounts.foldl
            (fun m pa => insertAccount m pa.1 pa.2) st.accounts })

end SwapTestContext

/-! ### Verification predicates (decoders in `src/helpers.rs`) -/

/-- Models `OfferData` in `src/helpers.rs`. -/
structure OfferData where
  id : Nat
  maker : Pubkey
  token_mint_a : Pubkey
  token_mint_b : Pubkey
  token_b_wanted_amount : Nat
  bump : Nat
deriving Repr, DecidableEq

/-- Models `read_pubkey`: a 32-byte slice, or a validation error. -/
def read_pubkey (data : List Nat) : Except TestContextError Pubkey :=
  if data.length = 32 then .ok data
  else .error (.ValidationError "Invalid pubkey bytes")

/-- Models `read_u64`: an 8-byte little-endian slice, or a validation error. -/
def read_u64 (data : List Nat) : Except TestContextError Nat :=
  if data.length = 8 then .ok (fromLe data)
  else .error (.ValidationError "Invalid u64 bytes")

/-- The Rust `&data[lo..hi]` slice. -/
def slice (data : List Nat) (lo hi : Nat) : List Nat :=
  (data.drop lo).take (hi - lo)

/-- Models `token_account_amount` in `src/helpers.rs`. -/
def token_account_amount (account : Account) : Except TestContextError Nat :=
  if account.data.length < 72 then
    .error (.ValidationError "Token account data too short")
  else read_u64 (slice account.data 64 72)

/-- Models `token_account_owner` in `src/helpers.rs`. -/
def token_account_owner (account : Account) : Except TestContextError Pubkey :=
  if account.data.length < 64 then
    .error (.ValidationError "Token account data too short")
  else read_pubkey (slice account.data 32 64)

/-- Models `token_account_mint` in `src/helpers.rs`. -/
def token_account_mint (account : Account) : Except TestContextError Pubkey :=
  if account.data.length < 32 then
    .error (.ValidationError "Token account data too short")
  else read_pubkey (slice account.data 0 32)

/-- Models `offer_data_from_account` in `src/helpers.rs`: discriminator (8),
id (8), maker (32), mint-a (32), mint-b (32), wanted amount (8),
bump (1) — minimum 121 bytes. -/
def offer_data_from_account (account : Account) :
    Except TestContextError OfferData :=
  if account.data.length < 8 + 8 + 32 + 32 + 32 + 8 + 1 then
    .error (.ValidationError "Offer account data too short")
  else do
  let id ← read_u64 (slice account.data 8 16)
  let maker ← read_pubkey (slice account.data 16 48)
  let token_mint_a ← read_pubkey (slice account.data 48 80)
  let token_mint_b ← read_pubkey (slice account.data 80 112)
  let token_b_wanted_amount ← read_u64 (slice account.data 112 120)
  let bump := account.data.getD 120 0
  pure { id := id, maker := maker, token_mint_a := token_mint_a,
         token_mint_b := token_mint_b,
         token_b_wanted_amount := token_b_wanted_amount, bump := bump }

/-! ### External SPL account packing

`token::create_account_for_token_account` and
`token::create_account_for_mint` are external collaborators
(`mollusk_svm_programs_token`).  Modelled from the spec: "Token Account
View (decoded projection of the data of an Account Record, at fixed byte
offsets: mint at [0,32), owner at [32,64), amount at [64,72) as
little-endian)", completed with the standard 165-byte SPL token-account
layout (delegate, state, native flag, delegated amount, close
authority) and the 82-byte mint layout. -/

/-- Models `spl_token_interface::state::Account` (the fields the fixture sets). -/
structure TokenAccount where
  mint : Pubkey
  owner : Pubkey
  amount : Nat
  state : Nat
deriving Repr, DecidableEq

/-- Models `spl_token_interface::state::Mint` (the fields the fixture sets). -/
structure MintState where
  mint_authority : Option Pubkey
  supply : Nat
  decimals : Nat
  is_initialized : Bool
deriving Repr, DecidableEq

/-- The SPL token program address (a fixed external constant; 32 bytes). -/
def splTokenProgramId : Pubkey := List.replicate 31 0 ++ [6]

/-- A fixed rent-exempt lamport balance for packed accounts (the exact
value is irrelevant to every claim). -/
def rentExemptLamports : Nat := 2039280

/-- A 36-byte packed `COption<Pubkey>`. -/
def packCOptionKey : Option Pubkey → List Nat
  | none => List.replicate 36 0
  | some p => [1, 0, 0, 0] ++ pad32 p

/-- Models `token::create_account_for_token_account`: the 165-byte SPL layout. -/
def create_account_for_token_account (ta : TokenAccount) : Account :=
  { lamports := rentExemptLamports
    owner := splTokenProgramId
    data := pad32 ta.mint ++ pad32 ta.owner ++ u64le ta.amount ++
      List.replicate 36 0 ++ [ta.state % 256] ++ List.replicate 12 0 ++
      u64le 0 ++ List.replicate 36 0
    executable := false }

/-- Models `token::create_account_for_mint`: the 82-byte SPL mint layout. -/
def create_account_for_mint (m : MintState) : Account :=
  { lamports := rentExemptLamports
    owner := splTokenProgramId
    data := packCOptionKey m.mint_authority ++ u64le m.supply ++
      [m.decimals % 256] ++ [if m.is_initialized then 1 else 0] ++
      List.replicate 36 0
    executable := false }

/-! ### Scenario fixture (`SwapFixture` in `src/helpers.rs`) -/

/-- Models `solana_system_program::id()`, which is all zero bytes — and thereby
also `Pubkey::default()`. -/
def systemProgramId : Pubkey := List.replicate 32 0

/-- Models `Pubkey::default()`: the all-zero address. -/
def pubkeyDefault : Pubkey := List.replicate 32 0

/-- The associated-token program address (fixed external constant). -/
def splAssociatedProgramId : Pubkey := List.replicate 31 0 ++ [7]

/-- The executable account registered for an ambient program. -/
def programAccount (ownerTag : Nat) : Account :=
  { lamports := 1, owner := List.replicate 31 0 ++ [ownerTag],
    data := [], executable := true }

/-- Models `OFFER_SEED_PREFIX` in `src/helpers.rs`: the bytes of `b"offer"`. -/
def offerSeedConst : List Nat := strBytes "offer"

/-- Models `DEFAULT_OFFERED_AMOUNT`. -/
def DEFAULT_OFFERED_AMOUNT : Nat := 1000000

/-- Models `DEFAULT_WANTED_AMOUNT`. -/
def DEFAULT_WANTED_AMOUNT : Nat := 1000000

/-- Models `DEFAULT_MINT_DECIMALS`. -/
def DEFAULT_MINT_DECIMALS : Nat := 6

/-- Models `empty_system_account` in `src/helpers.rs`. -/
def empty_system_account : Account :=
  { lamports := 0, owner := systemProgramId, data := [], executable := false }

/-- The ambient environment injected into the fixture: the execution
oracle, the loaded program identity, the fresh keys that
`Pubkey::new_unique` returns (in call order: maker, taker, mint-a,
mint-b), and the two external address derivations of the Solana SDK
(`Pubkey::find_program_address` and
`get_associated_token_address_with_program_id`). -/
structure Env where
  oracle : Oracle
  program_id : Pubkey
  makerKey : Pubkey
  takerKey : Pubkey
  mintAKey : Pubkey
  mintBKey : Pubkey
  find_program_address : List (List Nat) → Pubkey → Pubkey × Nat
  get_associated_token_address : Pubkey → Pubkey → Pubkey → Pubkey

/-- Models `init_test_context` (`src/mollusk/mod.rs`): a fresh context holding
the oracle and the loaded program id (the on-disk program search is an
out-of-scope collaborator and is represented by `env`). -/
def init_test_context (env : Env) : SwapTestContext :=
  SwapTestContext.new env.oracle env.program_id

/-- Models `SwapFixture` in `src/helpers.rs`. -/
structure SwapFixture where
  context : SwapTestContext
  program_id : Pubkey
  maker : Pubkey
  taker : Pubkey
  token_mint_a : Pubkey
  token_mint_b : Pubkey
  maker_token_account_a : Pubkey
  maker_token_account_b : Pubkey
  taker_token_account_a : Pubkey
  taker_token_account_b : Pubkey
  offer_id : Nat
  offer : Pubkey
  vault : Pubkey
  token_program : Pubkey
  associated_token_program : Pubkey
  offered_amount : Nat
  wanted_amount : Nat
  decimals_a : Nat

namespace SwapFixture

/-- Models `SwapFixture::new_with_amounts`, line for line.  Note the source
declares `let offer_id: i32 = 1` and derives the offer address from
`offer_id.to_le_bytes()` — the 4-byte little-endian form — while the
stored `offer_id` field is the converted `u64`. -/
def new_with_amounts (env : Env) (offered_amount wanted_amount
    maker_balance_a taker_balance_b decimals : Nat) : SwapFixture :=
  let context := init_test_context env
  let program_id := context.program_id
  let context := context.add_account systemProgramId (programAccount 9)
  let context := context.add_account splTokenProgramId (programAccount 8)
  let context := context.add_account splAssociatedProgramId (programAccount 8)
  let maker := env.makerKey
  let context := context.add_account maker
    { lamports := 1000000000, owner := systemProgramId, data := [],
      executable := false }
  let taker := env.takerKey
  let context := context.add_account taker
    { lamports := 1000000000, owner := systemProgramId, data := [],
      executable := false }
  let token_mint_a := env.mintAKey
  let token_mint_b := env.mintBKey
  let context := context.add_account token_mint_a (create_account_for_mint
    { mint_authority := some maker, supply := maker_balance_a,
      decimals := decimals, is_initialized := true })
  let context := context.add_account token_mint_b (create_account_for_mint
    { mint_authority := some taker, supply := taker_balance_b,
      decimals := decimals, is_initialized := true })
  let maker_token_account_a :=
    env.get_associated_token_address maker token_mint_a splTokenProgramId
  let maker_token_account_b :=
    env.get_associated_token_address maker token_mint_b splTokenProgramId
  let taker_token_account_a :=
    env.get_associated_token_address taker token_mint_a splTokenProgramId
  let taker_token_account_b :=
    env.get_associated_token_address taker token_mint_b splTokenProgramId
  let context := context.add_account maker_token_account_a
    (create_account_for_token_account
      { mint := token_mint_a, owner := maker, amount := maker_balance_a,
        state := 1 })
  let context := context.add_account maker_token_account_b
    (create_account_for_token_account
      { mint := token_mint_b, owner := maker, amount := 0, state := 1 })
  let context := context.add_account taker_token_account_a
    (create_account_for_token_account
      { mint := token_mint_a, owner := taker, amount := 0, state := 1 })
  let context := context.add_account taker_token_account_b
    (create_account_for_token_account
      { mint := token_mint_b, owner := taker, amount := taker_balance_b,
        state := 1 })
  let offer_id_i32 : Nat := 1
  let offer :=
    (env.find_program_address [offerSeedConst, maker, i32le offer_id_i32]
      program_id).1
  let vault := env.get_associated_token_address offer token_mint_a
    splTokenProgramId
  let context := context.add_account offer empty_system_account
  let context := context.add_account vault empty_system_account
  { context := context, program_id := program_id, maker := maker,
    taker := taker, token_mint_a := token_mint_a,
    token_mint_b := token_mint_b,
    maker_token_account_a := maker_token_account_a,
    maker_token_account_b := maker_token_account_b,
    taker_token_account_a := taker_token_account_a,
    taker_token_account_b := taker_token_account_b,
    offer_id := offer_id_i32, offer := offer, vault := vault,
    token_program := splTokenProgramId,
    associated_token_program := splAssociatedProgramId,
    offered_amount := offered_amount, wanted_amount := wanted_amount,
    decimals_a := decimals }

/-- Models `SwapFixture::new_default`. -/
def new_default (env : Env) : SwapFixture :=
  new_with_amounts env DEFAULT_OFFERED_AMOUNT DEFAULT_WANTED_AMOUNT
    DEFAULT_OFFERED_AMOUNT DEFAULT_WANTED_AMOUNT DEFAULT_MINT_DECIMALS

/-- Models `SwapFixture::make_offer_instruction`. -/
def make_offer_instruction (fx : SwapFixture) : Instruction :=
  let data :=
    build_make_offer_data fx.offer_id fx.offered_amount fx.wanted_amount
  create_swap_instruction fx.program_id data
    [AccountMeta.new fx.maker true,
     AccountMeta.new_readonly fx.token_mint_a false,
     AccountMeta.new_readonly fx.token_mint_b false,
     AccountMeta.new fx.maker_token_account_a false,
     AccountMeta.new fx.offer false,
     AccountMeta.new fx.vault false,
     AccountMeta.new_readonly systemProgramId false,
     AccountMeta.new_readonly fx.token_program false,
     AccountMeta.new_readonly fx.associated_token_program false]

/-- Models `SwapFixture::take_offer_instruction`. -/
def take_offer_instruction (fx : SwapFixture) : Instruction :=
  create_swap_instruction fx.program_id build_take_offer_data
    [AccountMeta.new fx.taker true,
     AccountMeta.new fx.maker false,
     AccountMeta.new_readonly fx.token_mint_a false,
     AccountMeta.new_readonly fx.token_mint_b false,
     AccountMeta.new fx.taker_token_account_a false,
     AccountMeta.new fx.taker_token_account_b false,
     AccountMeta.new fx.maker_token_account_b false,
     AccountMeta.new fx.offer false,
     AccountMeta.new fx.vault false,
     AccountMeta.new_readonly systemProgramId false,
     AccountMeta.new_readonly fx.token_program false,
     AccountMeta.new_readonly fx.associated_token_program false]

/-- Models `SwapFixture::execute_make_offer` (mutating `self.context`). -/
def execute_make_offer (fx : SwapFixture) :
    Except TestContextError Unit × SwapFixture :=
  let r := fx.context.execute_instruction fx.make_offer_instruction
  (r.1, { fx with context := r.2 })

/-- Models `SwapFixture::execute_take_offer`. -/
def execute_take_offer (fx : SwapFixture) :
    Except TestContextError Unit × SwapFixture :=
  let r := fx.context.execute_instruction fx.take_offer_instruction
  (r.1, { fx with context := r.2 })

/-- Models `SwapFixture::get_account`. -/
def get_account (fx : SwapFixture) (p : Pubkey) :
    Except TestContextError Account :=
  match fx.context.get_account p with
  | some a => .ok a
  | none => .error (.AccountNotFound (toString p))

end SwapFixture

/-! ### Checkpoints (`run_*` in `src/helpers.rs`)

`tester::CaseError` is a boxed dynamic error; the three conversions the
source uses (`to_case_error` family for `TestContextError`,
`to_case_error_from_load` for `ProgramLoadError`, and boxed
`std::io::Error` values) become the three constructors below. -/

/-- Models `tester::CaseError`, as the closed set of errors the source boxes. -/
inductive CaseError where
  | context (e : TestContextError)
  | load (msg : String)
  | io (msg : String)
deriving Repr, DecidableEq

/-- Models `to_case_error` / `to_case_error_from_context` / the implicit boxing
of a `TestContextError` by the `?` operator. -/
def ctxe : Except TestContextError α → Except CaseError α
  | .ok a => .ok a
  | .error e => .error (.context e)

/-- Models `make_offer_success` in `src/helpers.rs`. -/
def make_offer_success (fx : SwapFixture) :
    Except TestContextError Unit × SwapFixture :=
  fx.execute_make_offer

/-- Models `take_offer_success` in `src/helpers.rs`. -/
def take_offer_success (fx : SwapFixture) :
    Except TestContextError Unit × SwapFixture :=
  fx.execute_take_offer

/-- Models `run_make_offer_checks`: default fixture, successful make-offer,
then the maker token-a amount must be 0 and the vault amount must be
the offered amount. -/
def run_make_offer_checks (env : Env) : Except CaseError Unit :=
  let fx := SwapFixture.new_default env
  match make_offer_success fx with
  | (.error e, _) => .error (.context e)
  | (.ok _, fx) => do
      let maker_token_account ← ctxe (fx.get_account fx.maker_token_account_a)
      let vault_account ← ctxe (fx.get_account fx.vault)
      let maker_amount ← ctxe (token_account_amount maker_token_account)
      let vault_amount ← ctxe (token_account_amount vault_account)
      if maker_amount != 0 || vault_amount != fx.offered_amount then
        throw (.io "Make offer transfer did not move tokens to vault")
      else pure ()

/-- Models `run_cpi_transfer_check`: default fixture, successful make-offer,
then the vault amount must be the offered amount. -/
def run_cpi_transfer_check (env : Env) : Except CaseError Unit :=
  let fx := SwapFixture.new_default env
  match make_offer_success fx with
  | (.error e, _) => .error (.context e)
  | (.ok _, fx) => do
      let vault_account ← ctxe (fx.get_account fx.vault)
      let vault_amount ← ctxe (token_account_amount vault_account)
      if vault_amount != fx.offered_amount then
        throw (.io "Vault balance does not match offered amount")
      else pure ()

/-- Models `run_token_transfer_check`: default fixture, successful make-offer
and take-offer, then the taker token-a amount must equal the offered
amount and the maker token-b amount must equal the wanted amount. -/
def run_token_transfer_check (env : Env) : Except CaseError Unit :=
  let fx := SwapFixture.new_default env
  match make_offer_success fx with
  | (.error e, _) => .error (.context e)
  | (.ok _, fx) =>
      match take_offer_success fx with
      | (.error e, _) => .error (.context e)
      | (.ok _, fx) => do
          let taker_token_a ← ctxe (fx.get_account fx.taker_token_account_a)
          let maker_token_b ← ctxe (fx.get_account fx.maker_token_account_b)
          let taker_amount ← ctxe (token_account_amount taker_token_a)
          let maker_amount ← ctxe (token_account_amount maker_token_b)
          if taker_amount != fx.offered_amount ||
              maker_amount != fx.wanted_amount then
            throw (.io "Token balances did not transfer as expected")
          else pure ()

/-- Models `run_take_offer_checks` simply delegates. -/
def run_take_offer_checks (env : Env) : Except CaseError Unit :=
  run_token_transfer_check env

/-- Models `run_pda_checks`: default fixture, successful make-offer, decode the
offer record, re-derive the offer address from
`[b"offer", maker, offer_id.to_le_bytes()]` with the stored `u64`
`offer_id`, and require both the address and the bump to match. -/
def run_pda_checks (env : Env) : Except CaseError Unit :=
  let fx := SwapFixture.new_default env
  match make_offer_success fx with
  | (.error e, _) => .error (.context e)
  | (.ok _, fx) => do
      let offer_account ← ctxe (fx.get_account fx.offer)
      let offer ← ctxe (offer_data_from_account offer_account)
      let expected := env.find_program_address
        [offerSeedConst, fx.maker, u64le fx.offer_id] fx.program_id
      if expected.1 != fx.offer || offer.bump != expected.2 then
        throw (.io "Offer PDA derivation mismatch")
      else pure ()

/-- Models `run_security_checks`: after a successful make-offer, replace entry 1
(the maker) of the take-offer instruction by the taker as a writable
non-signer, and require the tampered instruction to fail with an
execution error. -/
def run_security_checks (env : Env) : Except CaseError Unit :=
  let fx := SwapFixture.new_default env
  match make_offer_success fx with
  | (.error e, _) => .error (.context e)
  | (.ok _, fx) =>
      let bad_instruction := fx.take_offer_instruction
      let bad_instruction := { bad_instruction with
        accounts := bad_instruction.accounts.set 1
          (AccountMeta.new fx.taker false) }
      match (fx.context.execute_instruction bad_instruction).1 with
      | .ok _ => .error (.io "Security check failed: invalid maker accepted")
      | .error (.ExecutionError _) => .ok ()
      | .error err => .error (.context err)

/-- Models `run_error_checks`: fixture whose maker token-a balance is 0 while
the offered amount stays 1,000,000; the make-offer submission must fail
with an execution error. -/
def run_error_checks (env : Env) : Except CaseError Unit :=
  let fx := SwapFixture.new_with_amounts env DEFAULT_OFFERED_AMOUNT
    DEFAULT_WANTED_AMOUNT 0 DEFAULT_WANTED_AMOUNT DEFAULT_MINT_DECIMALS
  match fx.execute_make_offer with
  | (.ok _, _) =>
      .error (.io "Expected make_offer to fail with insufficient funds")
  | (.error (.ExecutionError _), _) => .ok ()
  | (.error err, _) => .error (.context err)

/-- Models `run_make_offer_smoke`: default fixture; success and execution
errors both count as checkpoint success, anything else propagates. -/
def run_make_offer_smoke (env : Env) : Except CaseError Unit :=
  let fx := SwapFixture.new_default env
  match fx.execute_make_offer with
  | (.ok _, _) => .ok ()
  | (.error (.ExecutionError _), _) => .ok ()
  | (.error err, _) => .error (.context err)

/-- The outcomes of the out-of-scope infrastructure steps (environment
variable lookup, repository path existence, on-disk program artifact
search, manifest parse) that the wrapper checkpoints perform before the
smoke test. -/
structure Infra where
  repo_dir_set : Bool
  repo_exists : Bool
  program_available : Bool
  program_id_loads : Bool

/-- Models `run_env_setup_check`. -/
def run_env_setup_check (infra : Infra) (env : Env) : Except CaseError Unit :=
  if !infra.repo_dir_set then .error (.load "Repository directory not set")
  else if !infra.repo_exists then
    .error (.io "Repository directory not found")
  else if !infra.program_available then .error (.load "Program not found")
  else run_make_offer_smoke env

/-- Models `run_rust_basics_check`. -/
def run_rust_basics_check (infra : Infra) (env : Env) :
    Except CaseError Unit :=
  if !infra.repo_dir_set then .error (.load "Repository directory not set")
  else run_make_offer_smoke env

/-- Models `run_anchor_try_check`. -/
def run_anchor_try_check (infra : Infra) (env : Env) :
    Except CaseError Unit :=
  if !infra.repo_dir_set then .error (.load "Repository directory not set")
  else if !infra.program_id_loads then .error (.load "Program ID not found")
  else if env.program_id == pubkeyDefault then
    .error (.io "Program ID is still default")
  else run_make_offer_smoke env

/-- Models `run_deployment_checks` (same shape as `run_anchor_try_check`). -/
def run_deployment_checks (infra : Infra) (env : Env) :
    Except CaseError Unit :=
  if !infra.repo_dir_set then .error (.load "Repository directory not set")
  else if !infra.program_id_loads then .error (.load "Program ID is default")
  else if env.program_id == pubkeyDefault then
    .error (.io "Program ID is still default")
  else run_make_offer_smoke env

/-! ### Concrete evaluation environment

A small fully concrete environment used to evaluate the harness
end-to-end: a well-behaved oracle that settles `make_offer` and
`take_offer` the way a correct swap program would (except that it leaves
5 tokens in the vault after settlement, an amount no checkpoint looks
at), distinct concrete addresses, and simple injective stand-ins for the
two external address derivations. -/

/-- 165 bytes of token-account data holding the given amount. -/
def demoTokenData (amount : Nat) : List Nat :=
  List.replicate 64 0 ++ u64le amount ++ List.replicate 93 0

/-- A packed token account holding the given amount. -/
def demoTokenAccount (amount : Nat) : Account :=
  { lamports := rentExemptLamports, owner := splTokenProgramId,
    data := demoTokenData amount, executable := false }

/-- Default account meta used with `List.getD`. -/
def demoMeta : AccountMeta :=
  { pubkey := [], is_signer := false, is_writable := false }

/-- The address an instruction carries at the given position. -/
def metaKeyAt (instr : Instruction) (i : Nat) : Pubkey :=
  (instr.accounts.getD i demoMeta).pubkey

/-- A well-behaved oracle.  On `make_offer` it empties the maker
token-a account (position 3) and fills the vault (position 5); on
`take_offer` it requires the maker at position 1 to be the real maker
`[1]`, then credits the taker token-a account (position 4) and the
maker token-b account (position 6) and leaves 5 tokens in the vault
(position 8); everything else is rejected. -/
def demoOracle : Oracle := fun instr _ =>
  if instr.data = build_make_offer_data 1 1000000 1000000 then
    { program_result := .success
      resulting_accounts :=
        [(metaKeyAt instr 3, demoTokenAccount 0),
         (metaKeyAt instr 5, demoTokenAccount 1000000)] }
  else if instr.data = build_take_offer_data then
    if metaKeyAt instr 1 = [1] then
      { program_result := .success
        resulting_accounts :=
          [(metaKeyAt instr 8, demoTokenAccount 5),
           (metaKeyAt instr 4, demoTokenAccount 1000000),
           (metaKeyAt instr 6, demoTokenAccount 1000000)] }
    else { program_result := .failure "ConstraintSeeds",
           resulting_accounts := [] }
  else { program_result := .failure "InstructionFallbackNotFound",
         resulting_accounts := [] }

/-- The concrete environment around `demoOracle`. -/
def demoEnv : Env :=
  { oracle := demoOracle
    program_id := List.replicate 31 0 ++ [42]
    makerKey := [1]
    takerKey := [2]
    mintAKey := [3]
    mintBKey := [4]
    find_program_address := fun seeds _ => (10 :: seeds.flatten, 254)
    get_associated_token_address := fun w m p => 9 :: (w ++ m ++ p) }

/-- An oracle that rejects every instruction. -/
def rejectOracle : Oracle := fun _ _ =>
  { program_result := .failure "insufficient funds",
    resulting_accounts := [] }

/-- A copy of `demoEnv` with the rejecting oracle. -/
def rejectEnv : Env := { demoEnv with oracle := rejectOracle }

/-- A minimal account for the adapter-level evaluations. -/
def tinyAccount : Account :=
  { lamports := 5, owner := [], data := [], executable := false }

/-- A minimal instruction for the adapter-level evaluations. -/
def tinyInstr : Instruction := { program_id := [], data := [], accounts := [] }

/-- A context whose oracle rejects everything, holding one account. -/
def failCtx : SwapTestContext :=
  { mollusk := fun _ _ =>
      { program_result := .failure "boom", resulting_accounts := [] },
    accounts := [([1], tinyAccount)], program_id := [] }

/-- A context whose oracle succeeds and returns one fresh account. -/
def okCtx : SwapTestContext :=
  { mollusk := fun _ _ =>
      { program_result := .success,
        resulting_accounts := [([2], tinyAccount)] },
    accounts := [([1], tinyAccount)], program_id := [] }

/-- The infrastructure outcome in which every out-of-scope step
succeeds. -/
def okInfra : Infra :=
  { repo_dir_set := true, repo_exists := true, program_available := true,
    program_id_loads := true }

/-- The fixture state after the settled demo run (make-offer then
take-offer under `demoEnv`), used to inspect the final vault balance. -/
def demoFinalFx : SwapFixture :=
  (take_offer_success
    (make_offer_success (SwapFixture.new_default demoEnv)).2).2

/-- The fixture state after the demo make-offer. -/
def demoFx1 : SwapFixture :=
  (make_offer_success (SwapFixture.new_default demoEnv)).2

/-- The associated-token-account address the fixture computes for a
wallet and a mint. -/
abbrev ataOf (env : Env) (w m : Pubkey) : Pubkey :=
  env.get_associated_token_address w m splTokenProgramId

/-- The offer address the fixture stores: derived from the 4-byte
little-endian form of the `i32` offer id `1`. -/
abbrev offerOf (env : Env) : Pubkey :=
  (env.find_program_address [offerSeedConst, env.makerKey, i32le 1]
    env.program_id).1

/-- The vault address the fixture stores. -/
abbrev vaultOf (env : Env) : Pubkey := ataOf env (offerOf env) env.mintAKey

/-- The fixture `run_error_checks` builds: maker token-a balance 0,
offered amount still the 1,000,000 default. -/
def errorFixture (env : Env) : SwapFixture :=
  SwapFixture.new_with_amounts env DEFAULT_OFFERED_AMOUNT
    DEFAULT_WANTED_AMOUNT 0 DEFAULT_WANTED_AMOUNT DEFAULT_MINT_DECIMALS

/-- An account whose data buffer has only 5 bytes. -/
def shortAccount : Account :=
  { lamports := 0, owner := [], data := [0, 1, 2, 3, 4],
    executable := false }

/-- The packed initial maker token-a account of a fixture built with
the given maker balance. -/
def makerAtaAccount (env : Env) (mba : Nat) : Account :=
  create_account_for_token_account
    { mint := env.mintAKey, owner := env.makerKey, amount := mba,
      state := 1 }

/-- The tampered take-offer instruction `run_security_checks` builds:
entry 1 (the maker) replaced by the taker as a writable non-signer. -/
def tampered_take_instruction (fx : SwapFixture) : Instruction :=
  { fx.take_offer_instruction with
    accounts := fx.take_offer_instruction.accounts.set 1
      (AccountMeta.new fx.taker false) }

end SwapTester


/-!
## Theorems

Helper lemmas first, then one theorem per claim (with witnesses for the
theorems that carry hypotheses).
-/

namespace SwapTester

theorem leBytes_length (k n : Nat) : (leBytes k n).length = k := by
  induction k generalizing n with
  | zero => rfl
  | succ k ih => simp [leBytes, ih]

theorem fromLe_leBytes (k n : Nat) : fromLe (leBytes k n) = n % 256 ^ k := by
  induction k generalizing n with
  | zero => simp [leBytes, fromLe, Nat.mod_one]
  | succ k ih =>
      rw [pow_succ, Nat.mul_comm, Nat.mod_mul]
      simp only [leBytes, fromLe, ih]
      omega

theorem pad32_length (p : Pubkey) : (pad32 p).length = 32 := by
  simp [pad32]
  omega

theorem lookupAccount_insert_self (m : AccountMap) (k : Pubkey)
    (v : Account) : lookupAccount (insertAccount m k v) k = some v := by
  induction m with
  | nil => simp [insertAccount, lookupAccount]
  | cons hd tl ih =>
      by_cases h : hd.1 = k
      · simp [insertAccount, lookupAccount, h]
      · simp [insertAccount, lookupAccount, h, ih]

theorem lookupAccount_insert_ne (m : AccountMap) (k p : Pubkey)
    (v : Account) (h : k ≠ p) :
    lookupAccount (insertAccount m k v) p = lookupAccount m p := by
  induction m with
  | nil => simp [insertAccount, lookupAccount, h]
  | cons hd tl ih =>
      by_cases hk : hd.1 = k
      · by_cases hp : hd.1 = p
        · exact absurd (hk.symm.trans hp) h
        · simp [insertAccount, lookupAccount, hk, hp, h]
      · by_cases hp : hd.1 = p
        · simp [insertAccount, lookupAccount, hk, hp, Ne.symm h]
        · simp [insertAccount, lookupAccount, hk, hp, ih]

theorem lookupAccount_foldl_insert_notmem
    (l : List (Pubkey × Account)) (m : AccountMap) (p : Pubkey)
    (h : p ∉ l.map Prod.fst) :
    lookupAccount
        (l.foldl (fun acc pa => insertAccount acc pa.1 pa.2) m) p
      = lookupAccount m p := by
  induction l generalizing m with
  | nil => rfl
  | cons hd tl ih =>
      simp only [List.map, List.mem_cons, not_or] at h
      simp only [List.foldl]
      rw [ih _ h.2, lookupAccount_insert_ne _ _ _ _ (fun hk => h.1 hk.symm)]

theorem token_account_amount_pack (ta : TokenAccount) :
    token_account_amount (create_account_for_token_account ta)
      = .ok (ta.amount % 2 ^ 64) := by
  have hlen : (pad32 ta.mint ++ pad32 ta.owner).length = 64 := by
    simp [pad32_length]
  have h8 : (u64le ta.amount).length = 8 := leBytes_length 8 _
  have hdata :
      (create_account_for_token_account ta).data
        = (pad32 ta.mint ++ pad32 ta.owner) ++
          (u64le ta.amount ++ (List.replicate 36 0 ++ [ta.state % 256] ++
            List.replicate 12 0 ++ u64le 0 ++ List.replicate 36 0)) := by
    simp [create_account_for_token_account]
  rw [token_account_amount, hdata]
  rw [if_neg (by simp [pad32_length, u64le, leBytes_length])]
  rw [slice, List.drop_left' hlen]
  rw [show 72 - 64 = 8 from rfl, List.take_left' h8]
  rw [read_u64, if_pos h8]
  simp [u64le, fromLe_leBytes]

theorem fixture_maker_ata_lookup
    (env : Env) (oa wa mba tbb dec : Nat)
    (h1 : ataOf env env.makerKey env.mintAKey
      ≠ ataOf env env.makerKey env.mintBKey)
    (h2 : ataOf env env.makerKey env.mintAKey
      ≠ ataOf env env.takerKey env.mintAKey)
    (h3 : ataOf env env.makerKey env.mintAKey
      ≠ ataOf env env.takerKey env.mintBKey)
    (h4 : ataOf env env.makerKey env.mintAKey ≠ offerOf env)
    (h5 : ataOf env env.makerKey env.mintAKey ≠ vaultOf env) :
    (SwapFixture.new_with_amounts env oa wa mba tbb dec).get_account
        (ataOf env env.makerKey env.mintAKey)
      = .ok (makerAtaAccount env mba) := by
  simp only [ataOf, offerOf, vaultOf] at h1 h2 h3 h4 h5 ⊢
  simp only [SwapFixture.new_with_amounts, SwapFixture.get_account,
    SwapTestContext.get_account, SwapTestContext.add_account,
    init_test_context, SwapTestContext.new]
  rw [lookupAccount_insert_ne _ _ _ _ (Ne.symm h5),
      lookupAccount_insert_ne _ _ _ _ (Ne.symm h4),
      lookupAccount_insert_ne _ _ _ _ (Ne.symm h3),
      lookupAccount_insert_ne _ _ _ _ (Ne.symm h2),
      lookupAccount_insert_ne _ _ _ _ (Ne.symm h1),
      lookupAccount_insert_self]
  rfl

theorem fixture_vault_lookup (env : Env) (oa wa mba tbb dec : Nat) :
    (SwapFixture.new_with_amounts env oa wa mba tbb dec).get_account
        (vaultOf env)
      = .ok empty_system_account := by
  simp only [ataOf, offerOf, vaultOf]
  simp only [SwapFixture.new_with_amounts, SwapFixture.get_account,
    SwapTestContext.get_account, SwapTestContext.add_account,
    init_test_context, SwapTestContext.new]
  rw [lookupAccount_insert_self]

/-- C2: when the oracle reports an erroneous program result,
`execute_instruction` returns an `ExecutionError` and the whole context
— in particular the account map — is exactly the one before the call;
conversely the account map changes only on a successful result. -/
theorem c2_execute_instruction_atomic_on_error
    (st : SwapTestContext) (instruction : Instruction) :
    (∀ diag,
      (st.mollusk instruction st.get_account_list).program_result
          = .failure diag →
        st.execute_instruction instruction
          = (.error (.ExecutionError
              (ProgramResult.debugFmt (.failure diag))), st)) ∧
    ((st.execute_instruction instruction).2.accounts ≠ st.accounts →
      (st.mollusk instruction st.get_account_list).program_result
        = .success) := by
  constructor
  · intro diag h
    simp [SwapTestContext.execute_instruction, h]
  · intro hne
    rcases hr : (st.mollusk instruction st.get_account_list).program_result
      with _ | d
    · rfl
    · exact absurd (by simp [SwapTestContext.execute_instruction, hr]) hne

/-- C2 witness: a context whose oracle rejects everything returns the
execution error and is left untouched. -/
theorem c2_witness :
    failCtx.execute_instruction tinyInstr
      = (.error (.ExecutionError "boom"), failCtx) :=
  (c2_execute_instruction_atomic_on_error failCtx tinyInstr).1 "boom" rfl

/-- C9: on a successful execution, an address that the resulting account list
of the oracle does not mention keeps exactly its prior record
in the account map. -/
theorem c9_execute_instruction_frame
    (st : SwapTestContext) (instruction : Instruction) (p : Pubkey)
    (hok : (st.mollusk instruction st.get_account_list).program_result
      = .success)
    (hnot : p ∉ ((st.mollusk instruction
      st.get_account_list).resulting_accounts.map Prod.fst)) :
    (st.execute_instruction instruction).2.get_account p
      = st.get_account p := by
  simp only [SwapTestContext.execute_instruction, hok,
    SwapTestContext.get_account]
  exact lookupAccount_foldl_insert_notmem _ _ _ hnot

/-- C9 witness: a successful execution returning only the address `[2]`
leaves the record at `[1]` untouched. -/
theorem c9_witness :
    (okCtx.execute_instruction tinyInstr).2.get_account [1]
      = okCtx.get_account [1] :=
  c9_execute_instruction_frame okCtx tinyInstr [1] rfl (by decide)

/-- C8: every decoder rejects a buffer shorter than its minimum layout
(32 bytes for the mint, 64 for the owner, 72 for the amount, 121 for
the offer record) with a `ValidationError`; as total functions the
decoders cannot crash. -/
theorem c8_short_buffer_validation :
    (∀ account : Account, account.data.length < 32 →
      token_account_mint account
        = .error (.ValidationError "Token account data too short")) ∧
    (∀ account : Account, account.data.length < 64 →
      token_account_owner account
        = .error (.ValidationError "Token account data too short")) ∧
    (∀ account : Account, account.data.length < 72 →
      token_account_amount account
        = .error (.ValidationError "Token account data too short")) ∧
    (∀ account : Account, account.data.length < 121 →
      offer_data_from_account account
        = .error (.ValidationError "Offer account data too short")) := by
  refine ⟨fun a h => ?_, fun a h => ?_, fun a h => ?_, fun a h => ?_⟩
  · rw [token_account_mint, if_pos h]
  · rw [token_account_owner, if_pos h]
  · rw [token_account_amount, if_pos h]
  · rw [offer_data_from_account, if_pos (by omega)]

/-- C8 witness: all four decoders reject a 5-byte buffer. -/
theorem c8_witness :
    token_account_mint shortAccount
        = .error (.ValidationError "Token account data too short")
      ∧ token_account_owner shortAccount
        = .error (.ValidationError "Token account data too short")
      ∧ token_account_amount shortAccount
        = .error (.ValidationError "Token account data too short")
      ∧ offer_data_from_account shortAccount
        = .error (.ValidationError "Offer account data too short") :=
  ⟨c8_short_buffer_validation.1 shortAccount (by decide),
   c8_short_buffer_validation.2.1 shortAccount (by decide),
   c8_short_buffer_validation.2.2.1 shortAccount (by decide),
   c8_short_buffer_validation.2.2.2 shortAccount (by decide)⟩

/-- C3: the make-offer wire format is the 8-byte SHA-256 discriminator
of `global:make_offer` followed by the three little-endian `u64`
arguments in order (32 bytes in total, with the concrete discriminator
bytes evaluated), and the take-offer data is exactly the discriminator
of `global:take_offer`. -/
theorem c3_instruction_codec (id offered_amount wanted_amount : Nat) :
    build_make_offer_data id offered_amount wanted_amount
        = (sha256 (strBytes "global:make_offer")).take 8
            ++ u64le id ++ u64le offered_amount ++ u64le wanted_amount
      ∧ (build_make_offer_data id offered_amount wanted_amount).length = 32
      ∧ anchor_discriminator "global:make_offer"
          = [214, 98, 97, 35, 59, 12, 44, 178]
      ∧ build_take_offer_data
          = (sha256 (strBytes "global:take_offer")).take 8
      ∧ build_take_offer_data
          = [128, 156, 242, 207, 237, 192, 103, 240] := by
  have hd : anchor_discriminator "global:make_offer"
      = [214, 98, 97, 35, 59, 12, 44, 178] := by decide
  refine ⟨rfl, ?_, hd, rfl, by decide⟩
  simp [build_make_offer_data, hd, u64le, leBytes_length]

/-- C1: the fixture stores the offer address derived from the seeds
`[b"offer", maker, (1 : i32).to_le_bytes()]` — a 4-byte id seed — while
its `offer_id` field is the u64 1, so the seed list the claim (and
`run_pda_checks`) re-derives from, with the 8-byte little-endian form of
the u64 id, is a different seed list. -/
theorem c1_offer_pda_seed_mismatch (env : Env) :
    (SwapFixture.new_default env).offer
        = (env.find_program_address
            [offerSeedConst, env.makerKey, i32le 1] env.program_id).1
      ∧ (SwapFixture.new_default env).offer_id = 1
      ∧ i32le 1 = [1, 0, 0, 0]
      ∧ u64le (SwapFixture.new_default env).offer_id
          = [1, 0, 0, 0, 0, 0, 0, 0]
      ∧ [offerSeedConst, env.makerKey, i32le 1]
          ≠ [offerSeedConst, env.makerKey,
             u64le (SwapFixture.new_default env).offer_id] := by
  refine ⟨rfl, rfl, rfl, ?_, fun h => ?_⟩
  · rw [show (SwapFixture.new_default env).offer_id = 1 from rfl]
    decide
  have h3 := congrArg (fun l => List.getD l 2 ([] : List Nat)) h
  simp only [List.getD, List.getElem?_cons_succ, List.getElem?_cons_zero,
    Option.getD_some] at h3
  have hlen := congrArg List.length h3
  simp [i32le, u64le, leBytes_length] at hlen

theorem execute_instruction_error_preserves
    (st : SwapTestContext) (i : Instruction) (e : TestContextError)
    (h : (st.execute_instruction i).1 = .error e) :
    (st.execute_instruction i).2 = st := by
  rcases hr : (st.mollusk i st.get_account_list).program_result with _ | d
  · simp [SwapTestContext.execute_instruction, hr] at h
  · simp [SwapTestContext.execute_instruction, hr]

theorem execute_make_offer_error_preserves
    (fx : SwapFixture) (e : TestContextError)
    (h : (fx.execute_make_offer).1 = .error e) :
    (fx.execute_make_offer).2.context = fx.context := by
  exact execute_instruction_error_preserves fx.context
    fx.make_offer_instruction e h

/-- C4: in the default fixture the maker token-a account starts with
exactly 1,000,000 tokens and the vault starts as an empty system
account; after a successful make-offer, `run_make_offer_checks`
succeeds exactly when the decoded maker token-a amount is 0 (a decrease
by exactly the 1,000,000 offered) and the decoded vault amount equals
the offered amount 1,000,000. -/
theorem c4_make_offer_checkpoint
    (env : Env) (fx1 : SwapFixture) (A V : Account) (ma va : Nat)
    (h1 : ataOf env env.makerKey env.mintAKey
      ≠ ataOf env env.makerKey env.mintBKey)
    (h2 : ataOf env env.makerKey env.mintAKey
      ≠ ataOf env env.takerKey env.mintAKey)
    (h3 : ataOf env env.makerKey env.mintAKey
      ≠ ataOf env env.takerKey env.mintBKey)
    (h4 : ataOf env env.makerKey env.mintAKey ≠ offerOf env)
    (h5 : ataOf env env.makerKey env.mintAKey ≠ vaultOf env)
    (hrun : make_offer_success (SwapFixture.new_default env)
      = (.ok (), fx1))
    (hA : fx1.get_account fx1.maker_token_account_a = .ok A)
    (hV : fx1.get_account fx1.vault = .ok V)
    (hma : token_account_amount A = .ok ma)
    (hva : token_account_amount V = .ok va) :
    (SwapFixture.new_default env).get_account
        (ataOf env env.makerKey env.mintAKey)
      = .ok (makerAtaAccount env 1000000)
    ∧ token_account_amount (makerAtaAccount env 1000000) = .ok 1000000
    ∧ (SwapFixture.new_default env).get_account (vaultOf env)
      = .ok empty_system_account
    ∧ fx1.offered_amount = 1000000
    ∧ (run_make_offer_checks env = .ok () ↔ ma = 0 ∧ va = 1000000) := by
  have hoff : fx1.offered_amount = 1000000 := by
    have hfx : fx1 = (make_offer_success (SwapFixture.new_default env)).2 :=
      by rw [hrun]
    rw [hfx]
    rfl
  refine ⟨fixture_maker_ata_lookup env _ _ _ _ _ h1 h2 h3 h4 h5,
    by rw [makerAtaAccount, token_account_amount_pack]; norm_num,
    fixture_vault_lookup env _ _ _ _ _, hoff, ?_⟩
  simp only [run_make_offer_checks, hrun]
  simp only [ctxe, hA, hV, hma, hva, bind, Except.bind, hoff]
  by_cases hm : ma = 0 <;> by_cases hv : va = 1000000 <;>
    simp [hm, hv, pure, Except.pure]

/-- C4 witness: under the demo oracle the default fixture starts with
1,000,000 maker tokens, the settled amounts decode to 0 and 1,000,000,
and the checkpoint accepts. -/
theorem c4_witness :
    (SwapFixture.new_default demoEnv).get_account
        (ataOf demoEnv demoEnv.makerKey demoEnv.mintAKey)
      = .ok (makerAtaAccount demoEnv 1000000)
    ∧ token_account_amount (makerAtaAccount demoEnv 1000000) = .ok 1000000
    ∧ (SwapFixture.new_default demoEnv).get_account (vaultOf demoEnv)
      = .ok empty_system_account
    ∧ demoFx1.offered_amount = 1000000
    ∧ (run_make_offer_checks demoEnv = .ok ()
        ↔ 0 = 0 ∧ 1000000 = 1000000) :=
  c4_make_offer_checkpoint demoEnv demoFx1 (demoTokenAccount 0)
    (demoTokenAccount 1000000) 0 1000000
    (by decide) (by decide) (by decide) (by decide) (by decide)
    rfl (by decide) (by decide) (by decide) (by decide)

/-- C5 (amended): after a successful make-offer and take-offer,
`run_token_transfer_check` — to which `run_take_offer_checks` delegates
— accepts exactly when the decoded taker token-a amount equals the
offered amount 1,000,000 and the decoded maker token-b amount equals
the wanted amount 1,000,000; the vault balance is not inspected. -/
theorem c5_token_transfer_checkpoint
    (env : Env) (fx1 fx2 : SwapFixture) (TA MB : Account) (ta mb : Nat)
    (hmake : make_offer_success (SwapFixture.new_default env)
      = (.ok (), fx1))
    (htake : take_offer_success fx1 = (.ok (), fx2))
    (hTA : fx2.get_account fx2.taker_token_account_a = .ok TA)
    (hMB : fx2.get_account fx2.maker_token_account_b = .ok MB)
    (hta : token_account_amount TA = .ok ta)
    (hmb : token_account_amount MB = .ok mb) :
    fx2.offered_amount = 1000000
    ∧ fx2.wanted_amount = 1000000
    ∧ (run_token_transfer_check env = .ok ()
        ↔ ta = 1000000 ∧ mb = 1000000)
    ∧ run_take_offer_checks env = run_token_transfer_check env := by
  have hfx1 : fx1 = (make_offer_success (SwapFixture.new_default env)).2 :=
    by rw [hmake]
  have hfx : fx2 = (take_offer_success
      (make_offer_success (SwapFixture.new_default env)).2).2 := by
    rw [← hfx1, htake]
  have hoff : fx2.offered_amount = 1000000 := by rw [hfx]; rfl
  have hwant : fx2.wanted_amount = 1000000 := by rw [hfx]; rfl
  refine ⟨hoff, hwant, ?_, rfl⟩
  simp only [run_token_transfer_check, hmake, htake]
  simp only [ctxe, hTA, hMB, hta, hmb, bind, Except.bind, hoff, hwant]
  by_cases h1 : ta = 1000000 <;> by_cases h2 : mb = 1000000 <;>
    simp [h1, h2, pure, Except.pure]

/-- C5 counterexample: under the demo oracle the settled vault still
holds 5 tokens, yet `run_token_transfer_check` (and so
`run_take_offer_checks`) accepts — the checkpoint does not require a
zero vault balance. -/
theorem c5_counterexample :
    run_token_transfer_check demoEnv = .ok ()
      ∧ demoFinalFx.get_account demoFinalFx.vault
        = .ok (demoTokenAccount 5)
      ∧ token_account_amount (demoTokenAccount 5) = .ok 5
      ∧ run_take_offer_checks demoEnv = .ok () :=
  ⟨by decide, by decide, by decide, by decide⟩

/-- C5 witness: the amended characterization applied to the demo run. -/
theorem c5_witness :
    demoFinalFx.offered_amount = 1000000
    ∧ demoFinalFx.wanted_amount = 1000000
    ∧ (run_token_transfer_check demoEnv = .ok ()
        ↔ 1000000 = 1000000 ∧ 1000000 = 1000000)
    ∧ run_take_offer_checks demoEnv = run_token_transfer_check demoEnv :=
  c5_token_transfer_checkpoint demoEnv demoFx1 demoFinalFx
    (demoTokenAccount 1000000) (demoTokenAccount 1000000) 1000000 1000000
    rfl rfl (by decide) (by decide) (by decide) (by decide)

/-- C6: `run_error_checks` builds the fixture whose maker token-a
balance decodes to 0 while the offered amount stays 1,000,000, and
succeeds exactly when the submitted make-offer fails with an execution
error (of any kind); on any failure the account map is unchanged. -/
theorem c6_error_checkpoint
    (env : Env)
    (h1 : ataOf env env.makerKey env.mintAKey
      ≠ ataOf env env.makerKey env.mintBKey)
    (h2 : ataOf env env.makerKey env.mintAKey
      ≠ ataOf env env.takerKey env.mintAKey)
    (h3 : ataOf env env.makerKey env.mintAKey
      ≠ ataOf env env.takerKey env.mintBKey)
    (h4 : ataOf env env.makerKey env.mintAKey ≠ offerOf env)
    (h5 : ataOf env env.makerKey env.mintAKey ≠ vaultOf env) :
    (errorFixture env).get_account (ataOf env env.makerKey env.mintAKey)
        = .ok (makerAtaAccount env 0)
    ∧ token_account_amount (makerAtaAccount env 0) = .ok 0
    ∧ (errorFixture env).offered_amount = 1000000
    ∧ (run_error_checks env = .ok () ↔
        ∃ msg, ((errorFixture env).execute_make_offer).1
          = .error (.ExecutionError msg))
    ∧ (∀ e, ((errorFixture env).execute_make_offer).1 = .error e →
        ((errorFixture env).execute_make_offer).2.context.accounts
          = (errorFixture env).context.accounts) := by
  have hfx : SwapFixture.new_with_amounts env DEFAULT_OFFERED_AMOUNT
      DEFAULT_WANTED_AMOUNT 0 DEFAULT_WANTED_AMOUNT DEFAULT_MINT_DECIMALS
      = errorFixture env := rfl
  refine ⟨fixture_maker_ata_lookup env DEFAULT_OFFERED_AMOUNT
      DEFAULT_WANTED_AMOUNT 0 DEFAULT_WANTED_AMOUNT DEFAULT_MINT_DECIMALS
      h1 h2 h3 h4 h5,
    by rw [makerAtaAccount, token_account_amount_pack]; norm_num,
    rfl, ?_, ?_⟩
  · simp only [run_error_checks, hfx]
    rcases hx : (errorFixture env).execute_make_offer with ⟨r, fxa⟩
    rcases r with e | u
    · rcases e with m | m | m <;> simp [hx]
    · simp [hx]
  · intro e h
    exact congrArg SwapTestContext.accounts
      (execute_make_offer_error_preserves _ e h)

/-- C6 witness: with a rejecting oracle the zero-balance checkpoint
accepts and the fixture facts hold. -/
theorem c6_witness :
    (errorFixture rejectEnv).get_account
        (ataOf rejectEnv rejectEnv.makerKey rejectEnv.mintAKey)
      = .ok (makerAtaAccount rejectEnv 0)
    ∧ token_account_amount (makerAtaAccount rejectEnv 0) = .ok 0
    ∧ (errorFixture rejectEnv).offered_amount = 1000000
    ∧ (run_error_checks rejectEnv = .ok () ↔
        ∃ msg, ((errorFixture rejectEnv).execute_make_offer).1
          = .error (.ExecutionError msg))
    ∧ (∀ e, ((errorFixture rejectEnv).execute_make_offer).1 = .error e →
        ((errorFixture rejectEnv).execute_make_offer).2.context.accounts
          = (errorFixture rejectEnv).context.accounts) :=
  c6_error_checkpoint rejectEnv
    (by decide) (by decide) (by decide) (by decide) (by decide)

/-- C7: after a successful make-offer, `run_security_checks` replaces
entry 1 (the maker) of the take-offer instruction by the taker as a
writable non-signer, and succeeds exactly when the tampered instruction
fails with an execution error; a successful tampered execution fails
the checkpoint. -/
theorem c7_security_checkpoint
    (env : Env) (fx1 : SwapFixture)
    (hrun : make_offer_success (SwapFixture.new_default env)
      = (.ok (), fx1)) :
    fx1.take_offer_instruction.accounts.getD 1 demoMeta
        = AccountMeta.new fx1.maker false
    ∧ (tampered_take_instruction fx1).accounts.getD 1 demoMeta
        = { pubkey := fx1.taker, is_signer := false, is_writable := true }
    ∧ (run_security_checks env = .ok () ↔
        ∃ d, (fx1.context.execute_instruction
          (tampered_take_instruction fx1)).1
            = .error (.ExecutionError d))
    ∧ (∀ u, (fx1.context.execute_instruction
          (tampered_take_instruction fx1)).1 = .ok u →
        run_security_checks env
          = .error (.io "Security check failed: invalid maker accepted")) := by
  have ht : { fx1.take_offer_instruction with
      accounts := fx1.take_offer_instruction.accounts.set 1
        (AccountMeta.new fx1.taker false) }
      = tampered_take_instruction fx1 := rfl
  refine ⟨rfl, rfl, ?_, ?_⟩
  · simp only [run_security_checks, hrun, ht]
    rcases hx : (fx1.context.execute_instruction
        (tampered_take_instruction fx1)).1 with e | u
    · rcases e with m | m | m <;> simp [hx]
    · simp [hx]
  · intro u h
    simp only [run_security_checks, hrun, ht, h]

/-- C7 witness: the demo oracle rejects the tampered maker, so the
security checkpoint accepts. -/
theorem c7_witness :
    demoFx1.take_offer_instruction.accounts.getD 1 demoMeta
        = AccountMeta.new demoFx1.maker false
    ∧ (tampered_take_instruction demoFx1).accounts.getD 1 demoMeta
        = { pubkey := demoFx1.taker, is_signer := false,
            is_writable := true }
    ∧ (run_security_checks demoEnv = .ok () ↔
        ∃ d, (demoFx1.context.execute_instruction
          (tampered_take_instruction demoFx1)).1
            = .error (.ExecutionError d))
    ∧ (∀ u, (demoFx1.context.execute_instruction
          (tampered_take_instruction demoFx1)).1 = .ok u →
        run_security_checks demoEnv
          = .error
            (.io "Security check failed: invalid maker accepted")) :=
  c7_security_checkpoint demoEnv demoFx1 rfl

/-- C10: when the out-of-scope infrastructure steps succeed,
`run_env_setup_check`, `run_rust_basics_check`, `run_anchor_try_check`
and `run_deployment_checks` all reduce to `run_make_offer_smoke`, which
succeeds both on a successful make-offer and on any `ExecutionError`,
and propagates exactly the `ValidationError` and `AccountNotFound`
failures. -/
theorem c10_smoke_checkpoint
    (infra : Infra) (env : Env)
    (h1 : infra.repo_dir_set = true) (h2 : infra.repo_exists = true)
    (h3 : infra.program_available = true)
    (h4 : infra.program_id_loads = true)
    (h5 : (env.program_id == pubkeyDefault) = false) :
    run_env_setup_check infra env = run_make_offer_smoke env
    ∧ run_rust_basics_check infra env = run_make_offer_smoke env
    ∧ run_anchor_try_check infra env = run_make_offer_smoke env
    ∧ run_deployment_checks infra env = run_make_offer_smoke env
    ∧ (∀ u fxa, (SwapFixture.new_default env).execute_make_offer
          = (.ok u, fxa) → run_make_offer_smoke env = .ok ())
    ∧ (∀ msg fxa, (SwapFixture.new_default env).execute_make_offer
          = (.error (.ExecutionError msg), fxa) →
        run_make_offer_smoke env = .ok ())
    ∧ (∀ msg fxa, (SwapFixture.new_default env).execute_make_offer
          = (.error (.ValidationError msg), fxa) →
        run_make_offer_smoke env
          = .error (.context (.ValidationError msg)))
    ∧ (∀ msg fxa, (SwapFixture.new_default env).execute_make_offer
          = (.error (.AccountNotFound msg), fxa) →
        run_make_offer_smoke env
          = .error (.context (.AccountNotFound msg))) := by
  refine ⟨?_, ?_, ?_, ?_, ?_, ?_, ?_, ?_⟩
  · simp [run_env_setup_check, h1, h2, h3]
  · simp [run_rust_basics_check, h1]
  · simp [run_anchor_try_check, h1, h4, h5]
  · simp [run_deployment_checks, h1, h4, h5]
  · intro u fxa h; simp [run_make_offer_smoke, h]
  · intro msg fxa h; simp [run_make_offer_smoke, h]
  · intro msg fxa h; simp [run_make_offer_smoke, h]
  · intro msg fxa h; simp [run_make_offer_smoke, h]

/-- C10 witness: the all-success infrastructure with the demo
environment. -/
theorem c10_witness :
    run_env_setup_check okInfra demoEnv = run_make_offer_smoke demoEnv
    ∧ run_rust_basics_check okInfra demoEnv = run_make_offer_smoke demoEnv
    ∧ run_anchor_try_check okInfra demoEnv = run_make_offer_smoke demoEnv
    ∧ run_deployment_checks okInfra demoEnv = run_make_offer_smoke demoEnv
    ∧ (∀ u fxa, (SwapFixture.new_default demoEnv).execute_make_offer
          = (.ok u, fxa) → run_make_offer_smoke demoEnv = .ok ())
    ∧ (∀ msg fxa, (SwapFixture.new_default demoEnv).execute_make_offer
          = (.error (.ExecutionError msg), fxa) →
        run_make_offer_smoke demoEnv = .ok ())
    ∧ (∀ msg fxa, (SwapFixture.new_default demoEnv).execute_make_offer
          = (.error (.ValidationError msg), fxa) →
        run_make_offer_smoke demoEnv
          = .error (.context (.ValidationError msg)))
    ∧ (∀ msg fxa, (SwapFixture.new_default demoEnv).execute_make_offer
          = (.error (.AccountNotFound msg), fxa) →
        run_make_offer_smoke demoEnv
          = .error (.context (.AccountNotFound msg))) :=
  c10_smoke_checkpoint okInfra demoEnv rfl rfl rfl rfl (by decide)

end SwapTester
